import Mathlib

/-!
Verification development for the bi-temporal event-sourced object store
(`src/store`) and its reactive expression language (`src/reactive/expr.py`).

The Python sources are shallowly embedded:

* expression trees (`reactive/expr.py`) become the inductive `PyExpr` with an
  executable evaluator `PyExpr.eval` over a context of field values;
* the state machine (`store/state_machine.py`) becomes `SM` with
  `validate_transition`;
* the append-only event table becomes a `List Row`, and the client operations
  (`store/client.py`: `update`, `delete`, `transition`, `read`, `as_of`) become
  pure functions from a store to a result and a new store — each SQL INSERT is
  an append, and because `StoreClient.__init__` sets `autocommit = True`
  every INSERT is durably committed the moment it executes;
* the sharing helper (`store/permissions.py`: `share_read`) and the
  subscription catch-up loop (`store/subscriptions.py`) become list
  transformations.

Numeric values: Python ints and floats are both modelled as exact rationals
(`ℚ`).  No claim below depends on binary64 rounding; operations whose result
leaves the exact rational domain (fractional powers, `math.sqrt`, `math.log`,
`math.exp`, string conversion of a non-integer float) are mapped to the
explicit marker error `PyErr.floatApprox` and are never exercised by any
theorem in this file.
-/

/-- Runtime value of the expression language: Python `None`, `bool`, numbers
(int/float, modelled exactly as `ℚ`), and `str`. -/
inductive Value where
  | null : Value
  | bool (b : Bool) : Value
  | num (q : ℚ) : Value
  | str (s : String) : Value
deriving DecidableEq, Repr

/-- Python exceptions that the embedded code can raise. -/
inductive PyErr where
  | typeError : PyErr
  | zeroDivisionError : PyErr
  | keyError (k : String) : PyErr
  | attributeError : PyErr
  | valueError (msg : String) : PyErr
  | mathDomainError : PyErr
  | floatApprox : PyErr
deriving DecidableEq, Repr

/-- Evaluation context: the entity's field values, as built by
`json.loads(obj.to_json())` in `StoreClient.transition`. -/
abbrev Ctx := List (String × Value)

/-- Python dict lookup (`ctx[name]` succeeds iff the key is present). -/
def ctxLookup (name : String) : Ctx → Option Value
  | [] => none
  | (k, v) :: rest => if k = name then some v else ctxLookup name rest

/-- Python truthiness: `None`, `False`, `0`, `""` are falsy. -/
def Value.truthy : Value → Bool
  | .null => false
  | .bool b => b
  | .num q => q ≠ 0
  | .str s => s ≠ ""

/-- Numeric view: Python `bool` is an `int` subtype (`True` counts as 1). -/
def Value.asNum : Value → Option ℚ
  | .num q => some q
  | .bool b => some (if b then 1 else 0)
  | _ => none

/-- Integer view, for contexts that require a Python `int` (e.g. string
repetition): an int-valued number or a bool. -/
def Value.asInt : Value → Option ℤ
  | .num q => if q.den = 1 then some q.num else none
  | .bool b => some (if b then 1 else 0)
  | _ => none

/-- Python `l + r`: number addition, or string concatenation; anything else
(including a `None` operand) raises `TypeError`. -/
def pyAdd (l r : Value) : Except PyErr Value :=
  match l.asNum, r.asNum with
  | some a, some b => .ok (.num (a + b))
  | _, _ =>
    match l, r with
    | .str a, .str b => .ok (.str (a ++ b))
    | _, _ => .error .typeError

/-- Python `l - r`. -/
def pySub (l r : Value) : Except PyErr Value :=
  match l.asNum, r.asNum with
  | some a, some b => .ok (.num (a - b))
  | _, _ => .error .typeError

/-- Python `l * r`: number product, or string repetition by an int. -/
def pyMul (l r : Value) : Except PyErr Value :=
  match l.asNum, r.asNum with
  | some a, some b => .ok (.num (a * b))
  | _, _ =>
    match l, r with
    | .str s, v =>
      match v.asInt with
      | some n => .ok (.str (String.join (List.replicate n.toNat s)))
      | none => .error .typeError
    | v, .str s =>
      match v.asInt with
      | some n => .ok (.str (String.join (List.replicate n.toNat s)))
      | none => .error .typeError
    | _, _ => .error .typeError

/-- Python `l / r` (true division; exact in `ℚ`): `ZeroDivisionError` when the
divisor is zero. -/
def pyDiv (l r : Value) : Except PyErr Value :=
  match l.asNum, r.asNum with
  | some a, some b => if b = 0 then .error .zeroDivisionError else .ok (.num (a / b))
  | _, _ => .error .typeError

/-- Python `l % r`: `a - b * floor (a / b)` (the sign follows the divisor). -/
def pyMod (l r : Value) : Except PyErr Value :=
  match l.asNum, r.asNum with
  | some a, some b =>
    if b = 0 then .error .zeroDivisionError
    else .ok (.num (a - b * (⌊a / b⌋ : ℤ)))
  | _, _ => .error .typeError

/-- Python `l ** r` for an integer exponent (exact); a fractional exponent
yields a float (or complex) and is outside the exact domain. -/
def pyPow (l r : Value) : Except PyErr Value :=
  match l.asNum, r.asNum with
  | some a, some b =>
    if b.den = 1 then
      if 0 ≤ b.num then .ok (.num (a ^ b.num.toNat))
      else if a = 0 then .error .zeroDivisionError
      else .ok (.num ((a ^ (-b.num).toNat)⁻¹))
    else .error .floatApprox
  | _, _ => .error .typeError

/-- Python `<` on numbers (with bool coercion) or strings; mixed or `None`
operands raise `TypeError`. -/
def pyLt (l r : Value) : Except PyErr Value :=
  match l.asNum, r.asNum with
  | some a, some b => .ok (.bool (a < b))
  | _, _ =>
    match l, r with
    | .str a, .str b => .ok (.bool (a < b))
    | _, _ => .error .typeError

/-- Python `<=`. -/
def pyLe (l r : Value) : Except PyErr Value :=
  match l.asNum, r.asNum with
  | some a, some b => .ok (.bool (a ≤ b))
  | _, _ =>
    match l, r with
    | .str a, .str b => .ok (.bool (a ≤ b))
    | _, _ => .error .typeError

/-- Python `==`: numeric comparison (with bool coercion) when both sides are
numeric, structural equality otherwise; never raises, mixed types are unequal. -/
def pyEq (l r : Value) : Bool :=
  match l.asNum, r.asNum with
  | some a, some b => a = b
  | _, _ =>
    match l, r with
    | .null, .null => true
    | .str a, .str b => a = b
    | _, _ => false

/-- Python `str(v)` for the values whose textual form is exact: `None`,
booleans, strings, and integers.  The binary64 repr of a non-integer float is
outside the exact domain. -/
def pyStr : Value → Except PyErr String
  | .null => .ok "None"
  | .bool b => .ok (if b then "True" else "False")
  | .str s => .ok s
  | .num q => if q.den = 1 then .ok (toString q.num) else .error .floatApprox

/-- Python `round(x)` (one-argument form): round half to even, returning an
integer. -/
def roundHalfEven (a : ℚ) : ℤ :=
  let f : ℤ := ⌊a⌋
  let r : ℚ := a - f
  if r < 1/2 then f
  else if 1/2 < r then f + 1
  else if f % 2 = 0 then f else f + 1

/-- The keys of `Func._PYTHON_FUNCS` in `reactive/expr.py`. -/
def knownFuncs : List String :=
  ["sqrt", "ceil", "floor", "round", "log", "exp", "min", "max"]

/-- Python `min(*vs)` / `max(*vs)`: numbers or strings; with a single string
argument it folds over the characters (a string is iterable); other single or
empty argument lists raise `TypeError`/`ValueError` as in Python. -/
def pyMinMax (isMin : Bool) (vs : List Value) : Except PyErr Value :=
  match vs.mapM Value.asNum with
  | some (q :: qs) =>
    if qs.isEmpty then .error .typeError
    else .ok (.num (qs.foldl (fun a b => if isMin then min a b else max a b) q))
  | _ =>
    match vs with
    | [.str s] =>
      match s.toList with
      | [] => .error (.valueError "empty sequence")
      | c :: cs =>
        .ok (.str (String.mk [cs.foldl (fun a b =>
          if isMin then (if b < a then b else a) else (if a < b then b else a)) c]))
    | _ =>
      match vs.mapM (fun v => match v with | .str s => some s | _ => none) with
      | some (s :: ss) =>
        if ss.isEmpty then .error .typeError
        else .ok (.str (ss.foldl (fun a b => if isMin then min a b else max a b) s))
      | _ => .error .typeError

/-- Application step of `Func.eval`: the named math function applied to the
evaluated arguments.  `ceil`, `floor`, `round`, `min`, `max` are exact;
`sqrt`, `log`, `exp` return binary64 floats and are mapped to marker errors
(never used by any claim). -/
def applyFunc (name : String) (vs : List Value) : Except PyErr Value :=
  match name, vs with
  | "ceil", [v] =>
    match v.asNum with
    | some a => .ok (.num ((⌈a⌉ : ℤ) : ℚ))
    | none => .error .typeError
  | "floor", [v] =>
    match v.asNum with
    | some a => .ok (.num ((⌊a⌋ : ℤ) : ℚ))
    | none => .error .typeError
  | "round", [v] =>
    match v.asNum with
    | some a => .ok (.num ((roundHalfEven a : ℤ) : ℚ))
    | none => .error .typeError
  | "sqrt", [v] =>
    match v.asNum with
    | some a => if a < 0 then .error .mathDomainError else .error .floatApprox
    | none => .error .typeError
  | "log", [v] =>
    match v.asNum with
    | some a => if a ≤ 0 then .error .mathDomainError else .error .floatApprox
    | none => .error .typeError
  | "exp", [v] =>
    match v.asNum with
    | some _ => .error .floatApprox
    | none => .error .typeError
  | "min", args => pyMinMax true args
  | "max", args => pyMinMax false args
  | _, _ => .error .typeError

/-- Dispatch table of `BinOp.eval` in `reactive/expr.py`, applied after BOTH
operands have been evaluated (the source computes `l = self.left.eval(ctx)`
and `r = self.right.eval(ctx)` before inspecting `self.op`, so `and`/`or`
combine already-computed values and do not short-circuit evaluation). -/
def evalBinOp (op : String) (l r : Value) : Except PyErr Value :=
  if op = "+" then pyAdd l r
  else if op = "-" then pySub l r
  else if op = "*" then pyMul l r
  else if op = "/" then pyDiv l r
  else if op = "%" then pyMod l r
  else if op = "**" then pyPow l r
  else if op = ">" then pyLt r l
  else if op = "<" then pyLt l r
  else if op = ">=" then pyLe r l
  else if op = "<=" then pyLe l r
  else if op = "==" then .ok (.bool (pyEq l r))
  else if op = "!=" then .ok (.bool (!pyEq l r))
  else if op = "and" then .ok (if l.truthy then r else l)
  else if op = "or" then .ok (if l.truthy then l else r)
  else .error (.valueError "Unknown binary op")

/-- Dispatch of `UnaryOp.eval`. -/
def evalUnaryOp (op : String) (v : Value) : Except PyErr Value :=
  if op = "neg" then
    match v.asNum with
    | some a => .ok (.num (-a))
    | none => .error .typeError
  else if op = "abs" then
    match v.asNum with
    | some a => .ok (.num |a|)
    | none => .error .typeError
  else if op = "not" then .ok (.bool (!v.truthy))
  else .error (.valueError "Unknown unary op")

/-- Expression tree of `reactive/expr.py`: `Const`, `Field`, `BinOp`,
`UnaryOp`, `Func`, `If`, `Coalesce`, `IsNull`, `StrOp` (whose second argument
is optional, as in the source). -/
inductive PyExpr where
  | const (value : Value) : PyExpr
  | field (name : String) : PyExpr
  | binOp (op : String) (left right : PyExpr) : PyExpr
  | unaryOp (op : String) (operand : PyExpr) : PyExpr
  | func (name : String) (args : List PyExpr) : PyExpr
  | ifE (condition then_ else_ : PyExpr) : PyExpr
  | coalesce (exprs : List PyExpr) : PyExpr
  | isNull (operand : PyExpr) : PyExpr
  | strOp (op : String) (operand : PyExpr) (arg : Option PyExpr) : PyExpr

mutual

/-- Native evaluation (`Expr.eval` in `reactive/expr.py`) against a context. -/
def PyExpr.eval : PyExpr → Ctx → Except PyErr Value
  | .const v, _ => .ok v
  | .field name, ctx =>
    match ctxLookup name ctx with
    | some v => .ok v
    | none => .error (.keyError name)
  | .binOp op l r, ctx => do
    let lv ← l.eval ctx
    let rv ← r.eval ctx
    evalBinOp op lv rv
  | .unaryOp op e, ctx => do
    let v ← e.eval ctx
    evalUnaryOp op v
  | .func name args, ctx =>
    if name ∈ knownFuncs then do
      let vs ← PyExpr.evalList args ctx
      applyFunc name vs
    else .error (.valueError "Unknown function")
  | .ifE c t e, ctx => do
    let cv ← c.eval ctx
    if cv.truthy then t.eval ctx else e.eval ctx
  | .coalesce es, ctx => PyExpr.evalCoalesce es ctx
  | .isNull e, ctx => do
    let v ← e.eval ctx
    pure (.bool (v = Value.null))
  | .strOp op operand arg, ctx => do
    let v ← operand.eval ctx
    if op = "length" then
      match v with
      | .str s => pure (.num (s.length : ℚ))
      | _ => Except.error .typeError
    else if op = "upper" then
      match v with
      | .str s => pure (.str s.toUpper)
      | _ => Except.error .attributeError
    else if op = "lower" then
      match v with
      | .str s => pure (.str s.toLower)
      | _ => Except.error .attributeError
    else if op = "contains" then
      match arg with
      | none => Except.error .typeError
      | some a => do
        let av ← a.eval ctx
        match av, v with
        | .str sub, .str s => pure (.bool (decide (sub.toList <:+: s.toList)))
        | _, _ => Except.error .typeError
    else if op = "starts_with" then
      match arg with
      | none => Except.error .typeError
      | some a => do
        let av ← a.eval ctx
        match av, v with
        | .str p, .str s => pure (.bool (s.startsWith p))
        | _, _ => Except.error .typeError
    else if op = "concat" then
      match arg with
      | none => Except.error .typeError
      | some a => do
        let av ← a.eval ctx
        match v with
        | .str s => do
          let t ← pyStr av
          pure (.str (s ++ t))
        | _ => Except.error .typeError
    else Except.error (.valueError "Unknown string op")

/-- Evaluation of a `Func` node's argument list, left to right. -/
def PyExpr.evalList : List PyExpr → Ctx → Except PyErr (List Value)
  | [], _ => .ok []
  | e :: es, ctx => do
    let v ← e.eval ctx
    let vs ← PyExpr.evalList es ctx
    pure (v :: vs)

/-- `Coalesce.eval`: first non-`None` value; later expressions are not
evaluated once one is found; `None` when all are `None`. -/
def PyExpr.evalCoalesce : List PyExpr → Ctx → Except PyErr Value
  | [], _ => .ok .null
  | e :: es, ctx => do
    let v ← e.eval ctx
    if v = Value.null then PyExpr.evalCoalesce es ctx else pure v

end

/-- JSON values, the target of `Expr.to_json`: objects are ordered key/value
lists as produced by Python dict literals. -/
inductive Json where
  | null : Json
  | bool (b : Bool) : Json
  | num (q : ℚ) : Json
  | str (s : String) : Json
  | arr (xs : List Json) : Json
  | obj (fields : List (String × Json)) : Json

/-- Python dict lookup on a serialized node (`data["key"]`). -/
def jlookup (k : String) : List (String × Json) → Option Json
  | [] => none
  | (k2, v) :: rest => if k2 = k then some v else jlookup k rest

/-- Embedding of a runtime value into its JSON form (the `"value"` payload of
a serialized `Const`). -/
def Value.toJson : Value → Json
  | .null => .null
  | .bool b => .bool b
  | .num q => .num q
  | .str s => .str s

/-- Decoding of a `Const` payload.  `Expr.to_json` only ever emits scalar
payloads; a list or object payload would leave the modelled value domain. -/
def valueOfJson : Json → Except String Value
  | .null => .ok .null
  | .bool b => .ok (.bool b)
  | .num q => .ok (.num q)
  | .str s => .ok (.str s)
  | _ => .error "unsupported Const payload"

mutual

/-- Serialization (`to_json` on each node class of `reactive/expr.py`): a
self-describing tag/payload dict.  `StrOp.to_json` omits the `"arg"` key when
the operation has no second argument, exactly as the source does. -/
def PyExpr.to_json : PyExpr → Json
  | .const v => .obj [("type", .str "Const"), ("value", v.toJson)]
  | .field name => .obj [("type", .str "Field"), ("name", .str name)]
  | .binOp op l r =>
    .obj [("type", .str "BinOp"), ("op", .str op),
          ("left", l.to_json), ("right", r.to_json)]
  | .unaryOp op e =>
    .obj [("type", .str "UnaryOp"), ("op", .str op), ("operand", e.to_json)]
  | .func name args =>
    .obj [("type", .str "Func"), ("name", .str name),
          ("args", .arr (PyExpr.listToJson args))]
  | .ifE c t e =>
    .obj [("type", .str "If"), ("condition", c.to_json),
          ("then", t.to_json), ("else", e.to_json)]
  | .coalesce es =>
    .obj [("type", .str "Coalesce"), ("exprs", .arr (PyExpr.listToJson es))]
  | .isNull e => .obj [("type", .str "IsNull"), ("operand", e.to_json)]
  | .strOp op operand arg =>
    .obj ([("type", .str "StrOp"), ("op", .str op), ("operand", operand.to_json)] ++
          (match arg with
           | none => []
           | some a => [("arg", a.to_json)]))

/-- Serialization of a node list (`[a.to_json() for a in …]`). -/
def PyExpr.listToJson : List PyExpr → List Json
  | [] => []
  | e :: es => e.to_json :: PyExpr.listToJson es

end

mutual

/-- Structural size of a JSON value, used as the recursion budget of the
deserializer. -/
def jsize : Json → Nat
  | .null => 1
  | .bool _ => 1
  | .num _ => 1
  | .str _ => 1
  | .arr xs => 1 + jsizeList xs
  | .obj fields => 1 + jsizeFields fields

/-- Total size of a JSON array's elements. -/
def jsizeList : List Json → Nat
  | [] => 0
  | x :: rest => jsize x + jsizeList rest

/-- Total size of a JSON object's values. -/
def jsizeFields : List (String × Json) → Nat
  | [] => 0
  | (_, v) :: rest => jsize v + jsizeFields rest

end

/-- Deserialization of a node list (`[from_json(a) for a in …]`), with the
recursive parser passed in. -/
def parseList (recur : Json → Except String PyExpr) :
    List Json → Except String (List PyExpr)
  | [] => .ok []
  | x :: rest => do
    let e ← recur x
    let es ← parseList recur rest
    pure (e :: es)

/-- One dispatch step of `from_json` in `reactive/expr.py`: rebuild the node
for a known `"type"` tag, parsing children with `recur`.  A missing key is a
Python `KeyError` and an unrecognized tag is the
`ValueError("Unknown expression type")` raise, both modelled as
`Except.error`. -/
def parseNode (recur : Json → Except String PyExpr) (tag : String)
    (fields : List (String × Json)) : Except String PyExpr :=
  if tag = "Const" then
    match jlookup "value" fields with
    | some v => (valueOfJson v).map .const
    | none => .error "KeyError: value"
  else if tag = "Field" then
    match jlookup "name" fields with
    | some (.str name) => .ok (.field name)
    | some _ => .error "Field name is not a string"
    | none => .error "KeyError: name"
  else if tag = "BinOp" then
    match jlookup "op" fields with
    | some (.str op) =>
      match jlookup "left" fields, jlookup "right" fields with
      | some l, some r => do
        let le ← recur l
        let re ← recur r
        pure (.binOp op le re)
      | none, _ => .error "KeyError: left"
      | _, none => .error "KeyError: right"
    | some _ => .error "BinOp op is not a string"
    | none => .error "KeyError: op"
  else if tag = "UnaryOp" then
    match jlookup "op" fields with
    | some (.str op) =>
      match jlookup "operand" fields with
      | some o => do
        let oe ← recur o
        pure (.unaryOp op oe)
      | none => .error "KeyError: operand"
    | some _ => .error "UnaryOp op is not a string"
    | none => .error "KeyError: op"
  else if tag = "Func" then
    match jlookup "name" fields with
    | some (.str name) =>
      match jlookup "args" fields with
      | some (.arr xs) => do
        let args ← parseList recur xs
        pure (.func name args)
      | some _ => .error "Func args is not a list"
      | none => .error "KeyError: args"
    | some _ => .error "Func name is not a string"
    | none => .error "KeyError: name"
  else if tag = "If" then
    match jlookup "condition" fields, jlookup "then" fields,
          jlookup "else" fields with
    | some c, some t, some e => do
      let ce ← recur c
      let te ← recur t
      let ee ← recur e
      pure (.ifE ce te ee)
    | none, _, _ => .error "KeyError: condition"
    | _, none, _ => .error "KeyError: then"
    | _, _, none => .error "KeyError: else"
  else if tag = "Coalesce" then
    match jlookup "exprs" fields with
    | some (.arr xs) => do
      let es ← parseList recur xs
      pure (.coalesce es)
    | some _ => .error "Coalesce exprs is not a list"
    | none => .error "KeyError: exprs"
  else if tag = "IsNull" then
    match jlookup "operand" fields with
    | some o => do
      let oe ← recur o
      pure (.isNull oe)
    | none => .error "KeyError: operand"
  else if tag = "StrOp" then
    match jlookup "op" fields with
    | some (.str op) =>
      match jlookup "operand" fields with
      | some o =>
        match jlookup "arg" fields with
        | some a => do
          let ae ← recur a
          let oe ← recur o
          pure (.strOp op oe (some ae))
        | none => do
          let oe ← recur o
          pure (.strOp op oe none)
      | none => .error "KeyError: operand"
    | some _ => .error "StrOp op is not a string"
    | none => .error "KeyError: op"
  else .error "Unknown expression type"

/-- Deserialization with a recursion-depth budget.  Python recursion is
bounded only by the interpreter stack; the budget is an embedding artifact
and `from_json` below always supplies one large enough for its input. -/
def from_json_fuel : Nat → Json → Except String PyExpr
  | 0, _ => .error "recursion limit"
  | n + 1, j =>
    match j with
    | .obj fields =>
      match jlookup "type" fields with
      | some (.str tag) => parseNode (from_json_fuel n) tag fields
      | some _ => .error "Unknown expression type"
      | none => .error "KeyError: type"
    | _ => .error "Unknown expression type"

/-- Deserialization (`from_json` in `reactive/expr.py`). -/
def from_json (j : Json) : Except String PyExpr :=
  from_json_fuel (jsize j) j

mutual

/-- Structural size of an expression tree (proof measure). -/
def esize : PyExpr → Nat
  | .const _ => 1
  | .field _ => 1
  | .binOp _ l r => 1 + esize l + esize r
  | .unaryOp _ e => 1 + esize e
  | .func _ args => 1 + esizeList args
  | .ifE c t e => 1 + esize c + esize t + esize e
  | .coalesce es => 1 + esizeList es
  | .isNull e => 1 + esize e
  | .strOp _ operand arg => 1 + esize operand + esizeOpt arg

/-- Size of an optional expression tree. -/
def esizeOpt : Option PyExpr → Nat
  | none => 0
  | some a => esize a

/-- Total size of a list of expression trees. -/
def esizeList : List PyExpr → Nat
  | [] => 0
  | e :: es => esize e + esizeList es

end

theorem esize_pos (e : PyExpr) : 1 ≤ esize e := by
  cases e <;> simp only [esize] <;> omega

theorem esize_le_of_mem {a : PyExpr} :
    ∀ {l : List PyExpr}, a ∈ l → esize a ≤ esizeList l := by
  intro l h
  induction l with
  | nil => cases h
  | cons b bs ih =>
    rcases List.mem_cons.mp h with rfl | hmem
    · simp only [esizeList]; omega
    · have := ih hmem
      simp only [esizeList]; omega

theorem valueOfJson_toJson (v : Value) : valueOfJson v.toJson = Except.ok v := by
  cases v <;> rfl

theorem parseList_listToJson {f : Json → Except String PyExpr} :
    ∀ {args : List PyExpr}, (∀ a ∈ args, f a.to_json = Except.ok a) →
      parseList f (PyExpr.listToJson args) = Except.ok args := by
  intro args
  induction args with
  | nil => intro _; rfl
  | cons a as ih =>
    intro h
    simp only [PyExpr.listToJson, parseList, h a (by simp),
      ih (fun b hb => h b (by simp [hb]))]
    rfl

theorem from_json_fuel_to_json :
    ∀ (n : Nat) (e : PyExpr), esize e ≤ n →
      from_json_fuel n e.to_json = Except.ok e := by
  intro n
  induction n with
  | zero => intro e he; have := esize_pos e; omega
  | succ n ih =>
    intro e he
    match e with
    | .const v =>
      simp [PyExpr.to_json, from_json_fuel, jlookup, parseNode, Except.map, Except.bind, bind, pure, Except.pure, valueOfJson_toJson]
    | .field name =>
      simp [PyExpr.to_json, from_json_fuel, jlookup, parseNode, Except.map, Except.bind, bind, pure, Except.pure]
    | .binOp op l r =>
      have hl : esize l ≤ n := by simp only [esize] at he; omega
      have hr : esize r ≤ n := by simp only [esize] at he; omega
      simp [PyExpr.to_json, from_json_fuel, jlookup, parseNode, Except.map, Except.bind, bind, pure, Except.pure, ih l hl, ih r hr]
    | .unaryOp op o =>
      have ho : esize o ≤ n := by simp only [esize] at he; omega
      simp [PyExpr.to_json, from_json_fuel, jlookup, parseNode, Except.map, Except.bind, bind, pure, Except.pure, ih o ho]
    | .func name args =>
      have hargs : ∀ a ∈ args, from_json_fuel n a.to_json = Except.ok a := by
        intro a ha
        have h1 := esize_le_of_mem ha
        simp only [esize] at he
        exact ih a (by omega)
      simp [PyExpr.to_json, from_json_fuel, jlookup, parseNode, Except.map, Except.bind, bind, pure, Except.pure,
            parseList_listToJson hargs]
    | .ifE c t e2 =>
      have hc : esize c ≤ n := by simp only [esize] at he; omega
      have ht : esize t ≤ n := by simp only [esize] at he; omega
      have he2 : esize e2 ≤ n := by simp only [esize] at he; omega
      simp [PyExpr.to_json, from_json_fuel, jlookup, parseNode, Except.map, Except.bind, bind, pure, Except.pure,
            ih c hc, ih t ht, ih e2 he2]
    | .coalesce es =>
      have hes : ∀ a ∈ es, from_json_fuel n a.to_json = Except.ok a := by
        intro a ha
        have h1 := esize_le_of_mem ha
        simp only [esize] at he
        exact ih a (by omega)
      simp [PyExpr.to_json, from_json_fuel, jlookup, parseNode, Except.map, Except.bind, bind, pure, Except.pure,
            parseList_listToJson hes]
    | .isNull o =>
      have ho : esize o ≤ n := by simp only [esize] at he; omega
      simp [PyExpr.to_json, from_json_fuel, jlookup, parseNode, Except.map, Except.bind, bind, pure, Except.pure, ih o ho]
    | .strOp op operand arg =>
      have ho : esize operand ≤ n := by
        simp only [esize] at he; omega
      match arg with
      | none =>
        simp [PyExpr.to_json, from_json_fuel, jlookup, parseNode, Except.map, Except.bind, bind, pure, Except.pure, ih operand ho]
      | some a =>
        have ha : esize a ≤ n := by
          simp only [esize, esizeOpt] at he; omega
        simp [PyExpr.to_json, from_json_fuel, jlookup, parseNode, Except.map, Except.bind, bind, pure, Except.pure,
              ih operand ho, ih a ha]

theorem jsizeList_listToJson_ge :
    ∀ {es : List PyExpr}, (∀ a ∈ es, esize a ≤ jsize a.to_json) →
      esizeList es ≤ jsizeList (PyExpr.listToJson es) := by
  intro es
  induction es with
  | nil => intro _; simp [esizeList, PyExpr.listToJson, jsizeList]
  | cons a as ih =>
    intro h
    have h1 := h a (by simp)
    have h2 := ih (fun b hb => h b (by simp [hb]))
    simp only [esizeList, PyExpr.listToJson, jsizeList]
    omega

theorem esize_le_jsize_to_json :
    ∀ (n : Nat) (e : PyExpr), esize e ≤ n → esize e ≤ jsize e.to_json := by
  intro n
  induction n with
  | zero => intro e he; have := esize_pos e; omega
  | succ n ih =>
    intro e he
    match e with
    | .const v =>
      cases v <;>
        simp [PyExpr.to_json, esize, jsize, jsizeFields, Value.toJson]
    | .field name =>
      simp [PyExpr.to_json, esize, jsize, jsizeFields]
    | .binOp op l r =>
      have hl := ih l (by simp only [esize] at he; omega)
      have hr := ih r (by simp only [esize] at he; omega)
      simp only [PyExpr.to_json, esize, jsize, jsizeFields]
      omega
    | .unaryOp op o =>
      have ho := ih o (by simp only [esize] at he; omega)
      simp only [PyExpr.to_json, esize, jsize, jsizeFields]
      omega
    | .func name args =>
      have hargs : ∀ a ∈ args, esize a ≤ jsize a.to_json := by
        intro a ha
        have h1 := esize_le_of_mem ha
        simp only [esize] at he
        exact ih a (by omega)
      have h2 := jsizeList_listToJson_ge hargs
      simp only [PyExpr.to_json, esize, jsize, jsizeFields]
      omega
    | .ifE c t e2 =>
      have hc := ih c (by simp only [esize] at he; omega)
      have ht := ih t (by simp only [esize] at he; omega)
      have he2 := ih e2 (by simp only [esize] at he; omega)
      simp only [PyExpr.to_json, esize, jsize, jsizeFields]
      omega
    | .coalesce es =>
      have hes : ∀ a ∈ es, esize a ≤ jsize a.to_json := by
        intro a ha
        have h1 := esize_le_of_mem ha
        simp only [esize] at he
        exact ih a (by omega)
      have h2 := jsizeList_listToJson_ge hes
      simp only [PyExpr.to_json, esize, jsize, jsizeFields]
      omega
    | .isNull o =>
      have ho := ih o (by simp only [esize] at he; omega)
      simp only [PyExpr.to_json, esize, jsize, jsizeFields]
      omega
    | .strOp op operand arg =>
      have ho := ih operand (by simp only [esize] at he; omega)
      match arg with
      | none =>
        simp only [PyExpr.to_json, esize, esizeOpt, jsize, jsizeFields,
          List.append_nil, List.cons_append, List.nil_append]
        omega
      | some a =>
        have ha := ih a (by simp only [esize, esizeOpt] at he; omega)
        simp only [PyExpr.to_json, esize, esizeOpt, jsize, jsizeFields,
          List.append_nil, List.cons_append, List.nil_append]
        omega

theorem from_json_to_json (e : PyExpr) : from_json e.to_json = Except.ok e := by
  show from_json_fuel (jsize e.to_json) e.to_json = Except.ok e
  exact from_json_fuel_to_json (jsize e.to_json) e
    (esize_le_jsize_to_json (esize e) e le_rfl)

/-- C7: for every expression tree built from the node kinds Const, Field,
BinOp, UnaryOp, Func, If, Coalesce, IsNull, StrOp, deserializing its
serialized form (`from_json(T.to_json())`) yields a tree that evaluates
identically to T on every context.  (In fact deserialization returns the very
same tree, from which observational equivalence is immediate.) -/
theorem roundtrip_eval_identical (e : PyExpr) :
    ∃ e2, from_json e.to_json = Except.ok e2 ∧
      ∀ ctx : Ctx, e2.eval ctx = e.eval ctx :=
  ⟨e, from_json_to_json e, fun _ => rfl⟩

/-! ## State machine (`src/store/state_machine.py`) -/

/-- A state machine edge (`Transition` dataclass).  Callables (`action`,
`on_exit`, `on_enter`, `start_workflow`) are identified by name; their runtime
behaviour is supplied by a `hookRun` environment where needed. -/
structure TransitionEdge where
  from_state : String
  to_state : String
  guard : Option PyExpr := none
  action : Option String := none
  on_exit : Option String := none
  on_enter : Option String := none
  start_workflow : Option String := none
  allowed_by : Option (List String) := none

/-- A declarative state machine: `initial` plus `transitions`, as on the
`StateMachine` base class.  The `on_enter`/`on_exit` fields model the
class-level state-to-hooks dicts that concrete machines in this repository
declare (for example `OrderLifecycle` in `src/tests/test_store.py`) and that
`StoreClient.transition` consumes through `fire_on_exit`/`fire_on_enter`. -/
structure SM where
  initial : String
  transitions : List TransitionEdge
  on_enter : List (String × List String) := []
  on_exit : List (String × List String) := []

/-- Errors raised by the embedded store client and state machine.  Each
constructor carries the payload its Python exception class carries. -/
inductive Err where
  | invalidTransition (from_state : Option String) (to_state : String)
      (allowed : List String) : Err
  | guardFailure (from_state : Option String) (to_state : String)
      (guard : PyExpr) : Err
  | transitionNotPermitted (from_state : Option String) (to_state : String)
      (user : String) (allowed_by : List String) : Err
  | versionConflict (entity_id : String) (expected actual : Nat) : Err
  | permissionError (msg : String) : Err
  | valueError (msg : String) : Err
  | pyError (e : PyErr) : Err

/-- `StateMachine.get_transition`: the first edge matching
`(from_state, to_state)`, or none.  The current state of an entity without a
lifecycle yet is Python `None`, hence the `Option String`. -/
def SM.get_transition (sm : SM) (from_state : Option String)
    (to_state : String) : Option TransitionEdge :=
  sm.transitions.find? (fun t =>
    (some t.from_state == from_state) && (t.to_state == to_state))

/-- `StateMachine.allowed_transitions`: successor state names, no guards run. -/
def SM.allowed_transitions (sm : SM) (from_state : Option String) :
    List String :=
  (sm.transitions.filter (fun t => some t.from_state == from_state)).map
    (fun t => t.to_state)

/-- `StateMachine.validate_transition`: edge lookup, then guard, then
permission check, in the source's order.  A guard whose evaluation raises
propagates that exception (`pyError`); a falsy guard value is `GuardFailure`. -/
def SM.validate_transition (sm : SM) (from_state : Option String)
    (to_state : String) (context : Option Ctx) (user : Option String) :
    Except Err TransitionEdge :=
  match sm.get_transition from_state to_state with
  | none =>
    .error (.invalidTransition from_state to_state
      (sm.allowed_transitions from_state))
  | some t =>
    let guardCheck : Except Err Unit :=
      match t.guard, context with
      | some g, some c =>
        match g.eval c with
        | .error e => .error (.pyError e)
        | .ok v =>
          if v.truthy then .ok ()
          else .error (.guardFailure from_state to_state g)
      | _, _ => .ok ()
    match guardCheck with
    | .error e => .error e
    | .ok () =>
      match t.allowed_by, user with
      | some allowed, some u =>
        if allowed.contains u then .ok t
        else .error (.transitionNotPermitted from_state to_state u allowed)
      | _, _ => .ok t

/-- Hooks registered for a state in a class-level dict; Python looks the state
up in the dict, and the pre-lifecycle state `None` is never a key. -/
def lookupHooks (dict : List (String × List String)) (state : Option String) :
    List String :=
  match state with
  | none => []
  | some s => (((dict.find? (fun p => p.1 == s))).map Prod.snd).getD []

/-- Modelled from the spec: `StateMachine.fire_on_exit` / `fire_on_enter` are
called by `StoreClient.transition` (src/store/client.py lines 303 and 306) but
are not defined anywhere under src/ — `src/store/state_machine.py` has no such
methods.  Per the spec's tier-2 contract ("After the commit. Swallowed:
failures are logged and the state change still stands") this runs every hook
registered for the state, records the call, and swallows (collects) any raised
exception. -/
def fireHooks (hookRun : String → Except PyErr Unit) (hooks : List String) :
    List String × List (String × PyErr) :=
  hooks.foldl (fun acc h =>
    match hookRun h with
    | .ok () => (acc.1 ++ [h], acc.2)
    | .error e => (acc.1 ++ [h], acc.2 ++ [(h, e)])) ([], [])

/-! ## Storage engine (`src/store/client.py` over the `object_events` table) -/

/-- Transaction / business time instants, abstracted to naturals. -/
abbrev Time := Nat

/-- The `event_meta` payload written by `transition` (the source stores
`str(t.guard)`; the expression itself is kept here). -/
structure Meta where
  from_state : Option String
  to_state : String
  triggered_by : String
  guard : Option PyExpr
  allowed_by : Option (List String)

/-- One row of the append-only `object_events` table (the columns the client
reads and writes).  `updated_by` is filled by the substrate with the acting
principal (schema default `current_user`). -/
structure Row where
  entity_id : String
  version : Nat
  type_name : String
  owner : String
  updated_by : String
  readers : List String
  writers : List String
  data : Ctx
  state : Option String
  event_type : String
  event_meta : Option Meta
  tx_time : Time
  valid_from : Time
  valid_to : Option Time

/-- The event table, in insertion order (append-only INSERTs). -/
abbrev EventStore := List Row

/-- An in-memory `Storable` object with its `_store_*` metadata fields as
maintained by the client (`None` before the first `write`). -/
structure Obj where
  type_name : String
  data : Ctx
  entity_id : Option String := none
  version : Option Nat := none
  owner : Option String := none
  updated_by : Option String := none
  tx_time : Option Time := none
  valid_from : Option Time := none
  valid_to : Option Time := none
  state : Option String := none
  event_type : Option String := none

namespace StoreClient

/-- `StoreClient._next_version`: `COALESCE(MAX(version), 0) + 1` for the
entity. -/
def next_version (store : EventStore) (entity_id : String) : Nat :=
  ((store.filter (fun r => r.entity_id == entity_id)).map Row.version).foldl
    max 0 + 1

/-- `ORDER BY version DESC LIMIT 1` over the rows satisfying `p`:
the row with the greatest version (versions are unique per entity). -/
def latestRow (p : Row → Bool) (store : EventStore) : Option Row :=
  (store.filter p).foldl (fun acc r =>
    match acc with
    | none => some r
    | some b => if b.version < r.version then some r else some b) none

/-- `StoreClient._row_to_object`: a typed object carrying the row's data and
bi-temporal metadata. -/
def _row_to_object (r : Row) : Obj :=
  { type_name := r.type_name
    data := r.data
    entity_id := some r.entity_id
    version := some r.version
    owner := some r.owner
    updated_by := some r.updated_by
    tx_time := some r.tx_time
    valid_from := some r.valid_from
    valid_to := r.valid_to
    state := r.state
    event_type := some r.event_type }

/-- `StoreClient.read`: latest version of the entity; `None` if there is no
row or the latest row is a `DELETED` tombstone.  (Row-level security is
enforced by the substrate, outside this single-principal model.) -/
def read (store : EventStore) (entity_id : String) : Option Obj :=
  match latestRow (fun r => r.entity_id == entity_id) store with
  | none => none
  | some r =>
    if r.event_type == "DELETED" then none else some (_row_to_object r)

/-- The WHERE clause of `as_of`: entity match plus `tx_time ≤ T₁` and
`valid_from ≤ T₂`, each bound applied only when its argument is present. -/
def as_of_pred (entity_id : String) (tx_time valid_time : Option Time)
    (r : Row) : Bool :=
  r.entity_id == entity_id
  && (match tx_time with | none => true | some t => decide (r.tx_time ≤ t))
  && (match valid_time with
      | none => true
      | some t => decide (r.valid_from ≤ t))

/-- `StoreClient.as_of`: latest version satisfying the bi-temporal bounds.
Note: no `event_type` filter — unlike `read`, tombstones are returned as
objects. -/
def as_of (store : EventStore) (entity_id : String)
    (tx_time : Option Time := none) (valid_time : Option Time := none) :
    Option Obj :=
  (latestRow (as_of_pred entity_id tx_time valid_time) store).map
    _row_to_object

/-- `StoreClient.update`: append a new version.  Fails before any INSERT when
the object was never written, when the cached `_store_version` mismatches the
stored maximum (optimistic concurrency), or when the caller is neither owner
nor writer; on success appends exactly one `UPDATED`/`CORRECTED` row and bumps
the object's cached metadata. -/
def update (store : EventStore) (user : String) (now : Time) (obj : Obj)
    (valid_from : Option Time := none) : Except Err Obj × EventStore :=
  match obj.entity_id with
  | none =>
    (.error (.valueError "Object has no entity_id — write() it first"), store)
  | some e =>
    let next_ver := next_version store e
    let occ : Except Err Unit :=
      match obj.version with
      | some v =>
        if next_ver - 1 ≠ v then .error (.versionConflict e v (next_ver - 1))
        else .ok ()
      | none => .ok ()
    match occ with
    | .error err => (.error err, store)
    | .ok () =>
      let event_type :=
        match valid_from with
        | some vf => if vf < now then "CORRECTED" else "UPDATED"
        | none => "UPDATED"
      let prev := latestRow (fun r => r.entity_id == e) store
      let original_owner := match prev with | some p => p.owner | none => user
      let readers := match prev with | some p => p.readers | none => []
      let writers := match prev with | some p => p.writers | none => []
      if user != original_owner && !(writers.contains user) then
        (.error (.permissionError "Cannot update entity — not owner or writer"),
         store)
      else
        let row : Row :=
          { entity_id := e
            version := next_ver
            type_name := obj.type_name
            owner := original_owner
            updated_by := user
            readers := readers
            writers := writers
            data := obj.data
            state := obj.state
            event_type := event_type
            event_meta := none
            tx_time := now
            valid_from := valid_from.getD now
            valid_to := none }
        let obj2 :=
          { obj with
            version := some next_ver
            tx_time := some now
            valid_from := some (valid_from.getD now)
            event_type := some event_type }
        (.ok obj2, store ++ [row])

/-- `StoreClient.delete`: append a `DELETED` tombstone, with the same
entity-id and optimistic-concurrency checks as `update` (and no
client-side owner/writer check; the tombstone INSERT lists neither readers
nor writers, so they take the schema's empty defaults). -/
def delete (store : EventStore) (user : String) (now : Time) (obj : Obj) :
    Except Err Obj × EventStore :=
  match obj.entity_id with
  | none =>
    (.error (.valueError "Object has no entity_id — write() it first"), store)
  | some e =>
    let next_ver := next_version store e
    let occ : Except Err Unit :=
      match obj.version with
      | some v =>
        if next_ver - 1 ≠ v then .error (.versionConflict e v (next_ver - 1))
        else .ok ()
      | none => .ok ()
    match occ with
    | .error err => (.error err, store)
    | .ok () =>
      let prev := latestRow (fun r => r.entity_id == e) store
      let original_owner := match prev with | some p => p.owner | none => user
      let row : Row :=
        { entity_id := e
          version := next_ver
          type_name := obj.type_name
          owner := original_owner
          updated_by := user
          readers := []
          writers := []
          data := obj.data
          state := obj.state
          event_type := "DELETED"
          event_meta := none
          tx_time := now
          valid_from := now
          valid_to := none }
      let obj2 :=
        { obj with
          version := some next_ver
          tx_time := some now
          event_type := some "DELETED" }
      (.ok obj2, store ++ [row])

end StoreClient

namespace StoreClient

/-- Everything observable about one `StoreClient.transition` call: the raised
error (if any), the in-place-mutated object, the event table afterwards, the
hook callables invoked in order, the tier-2 exceptions that were swallowed,
and the workflows dispatched to the `WorkflowEngine`. -/
structure TransitionResult where
  result : Except Err Unit
  obj : Obj
  store : EventStore
  hookCalls : List String
  swallowed : List (String × PyErr)
  dispatched : List String

/-- `StoreClient.transition` (src/store/client.py lines 230-306).

Pipeline, in source order: validate (edge / guard / permission) before any
side-effect; INSERT the `STATE_CHANGE` event — durably committed at once,
because the connection has `autocommit = True` (`__init__`, line 74); mutate
the object's cached metadata; then fire `on_exit` hooks, the edge's `action`,
and `on_enter` hooks.  An `action` exception propagates (so `on_enter` never
runs), after the INSERT has already committed.  No `start_workflow` dispatch
appears anywhere in the source pipeline, so `dispatched` is always empty.

`sm` is the entity class's `_state_machine` attribute and `hookRun` gives the
behaviour of the user-supplied hook callables.  (A `none` entity id would
surface as a substrate NOT NULL violation; it is modelled as an error raised
before the INSERT.) -/
def transition (store : EventStore) (user : String) (now : Time)
    (sm : Option SM) (hookRun : String → Except PyErr Unit) (obj : Obj)
    (new_state : String) (valid_from : Option Time := none) :
    TransitionResult :=
  match sm with
  | none =>
    { result := .error (.valueError "has no state machine registered")
      obj := obj, store := store, hookCalls := [], swallowed := []
      dispatched := [] }
  | some m =>
    let current_state := obj.state
    let context := obj.data
    match m.validate_transition current_state new_state (some context)
        (some user) with
    | .error e =>
      { result := .error e, obj := obj, store := store, hookCalls := []
        swallowed := [], dispatched := [] }
    | .ok t =>
      match obj.entity_id with
      | none =>
        { result := .error (.valueError "entity_id is NULL")
          obj := obj, store := store, hookCalls := [], swallowed := []
          dispatched := [] }
      | some e =>
        let next_ver := next_version store e
        let prev := latestRow (fun r => r.entity_id == e) store
        let original_owner := match prev with | some p => p.owner | none => user
        let readers := match prev with | some p => p.readers | none => []
        let writers := match prev with | some p => p.writers | none => []
        let meta : Meta :=
          { from_state := current_state, to_state := new_state
            triggered_by := user, guard := t.guard
            allowed_by := t.allowed_by }
        let row : Row :=
          { entity_id := e
            version := next_ver
            type_name := obj.type_name
            owner := original_owner
            updated_by := user
            readers := readers
            writers := writers
            data := obj.data
            state := some new_state
            event_type := "STATE_CHANGE"
            event_meta := some meta
            tx_time := now
            valid_from := valid_from.getD now
            valid_to := none }
        let store2 := store ++ [row]
        let obj2 :=
          { obj with
            version := some next_ver
            state := some new_state
            tx_time := some now
            valid_from := some (valid_from.getD now)
            event_type := some "STATE_CHANGE" }
        let exitFired := fireHooks hookRun (lookupHooks m.on_exit current_state)
        match t.action with
        | some a =>
          match hookRun a with
          | .error e2 =>
            { result := .error (.pyError e2), obj := obj2, store := store2
              hookCalls := exitFired.1 ++ [a], swallowed := exitFired.2
              dispatched := [] }
          | .ok () =>
            let enterFired :=
              fireHooks hookRun (lookupHooks m.on_enter (some new_state))
            { result := .ok (), obj := obj2, store := store2
              hookCalls := exitFired.1 ++ [a] ++ enterFired.1
              swallowed := exitFired.2 ++ enterFired.2
              dispatched := [] }
        | none =>
          let enterFired :=
            fireHooks hookRun (lookupHooks m.on_enter (some new_state))
          { result := .ok (), obj := obj2, store := store2
            hookCalls := exitFired.1 ++ enterFired.1
            swallowed := exitFired.2 ++ enterFired.2
            dispatched := [] }

end StoreClient

/-- `share_read` (src/store/permissions.py): `UPDATE object_events SET
readers = array_append(readers, u) WHERE entity_id = e AND NOT (u =
ANY(readers))` — append the grantee to the readers of every version of the
entity that does not already list them.  (The RLS owner/writer admissibility
check is the substrate's, outside this model.) -/
def share_read_row (entity_id to_user : String) (r : Row) : Row :=
  if r.entity_id == entity_id && !(r.readers.contains to_user) then
    { r with readers := r.readers ++ [to_user] }
  else r

def share_read (store : EventStore) (entity_id : String)
    (to_user : String) : EventStore :=
  store.map (share_read_row entity_id to_user)

/-! ## Subscription catch-up (`src/store/subscriptions.py`) -/

/-- `ChangeEvent` as built by `SubscriptionListener._catch_up` from the
columns it SELECTs. -/
structure ChangeEvent where
  entity_id : String
  version : Nat
  event_type : String
  type_name : String
  updated_by : String
  state : Option String
  tx_time : Time
deriving DecidableEq, Repr

/-- The event built from one selected row. -/
def rowEvent (r : Row) : ChangeEvent :=
  { entity_id := r.entity_id
    version := r.version
    event_type := r.event_type
    type_name := r.type_name
    updated_by := r.updated_by
    state := r.state
    tx_time := r.tx_time }

/-- Ordering on rows by `tx_time` (the `ORDER BY tx_time ASC` of the catch-up
SELECT). -/
def txLe (a b : Row) : Prop := a.tx_time ≤ b.tx_time

instance : DecidableRel txLe := fun a b => Nat.decLe a.tx_time b.tx_time

instance : IsTotal Row txLe := ⟨fun a b => Nat.le_total a.tx_time b.tx_time⟩

instance : IsTrans Row txLe := ⟨fun _ _ _ => Nat.le_trans⟩

/-- What one `_catch_up` call does: the events dispatched to the bus in
order, the in-memory high-water mark afterwards, and the checkpoint values
durably persisted (in order) during the call. -/
structure CatchUpResult where
  dispatched : List ChangeEvent
  last_tx_time : Option Time
  persisted : List Time
deriving DecidableEq, Repr

/-- `SubscriptionListener._save_checkpoint`: writes the current mark iff a
`subscriber_id` is configured and the mark is set. -/
def save_checkpoint (subscriber_id : Option String) (last : Option Time) :
    List Time :=
  match subscriber_id, last with
  | some _, some t => [t]
  | _, _ => []

/-- `SubscriptionListener._catch_up`: with no checkpoint, initialize the mark
to now and persist it, dispatching nothing.  With a checkpoint, select the
events with `tx_time >` the mark in ascending `tx_time` (the SQL sort is
realized by insertion sort), dispatch each to the bus advancing the in-memory
mark, and call `_save_checkpoint` once, after the loop (source line 215). -/
def catch_up (store : EventStore) (subscriber_id : Option String) (now : Time)
    (last_tx_time : Option Time) : CatchUpResult :=
  match last_tx_time with
  | none =>
    { dispatched := []
      last_tx_time := some now
      persisted := save_checkpoint subscriber_id (some now) }
  | some last0 =>
    let rows :=
      List.insertionSort txLe
        (store.filter (fun r => decide (last0 < r.tx_time)))
    let final := rows.foldl
      (fun (acc : List ChangeEvent × Time) r =>
        (acc.1 ++ [rowEvent r], r.tx_time)) ([], last0)
    { dispatched := final.1
      last_tx_time := some final.2
      persisted := save_checkpoint subscriber_id (some final.2) }

/-- C5 counterexample: `BinOp("+", Const(None), Const(1)).eval({})` raises
`TypeError` instead of yielding null, and
`BinOp("and", Const(False), BinOp("/", Const(1), Const(0))).eval({})` raises
`ZeroDivisionError` although the left operand already decides the result —
`BinOp.eval` evaluates both operands before dispatching on the operator, so
`and`/`or` do not short-circuit. -/
theorem native_eval_cex :
    (PyExpr.binOp "+" (.const .null) (.const (.num 1))).eval [] =
      Except.error PyErr.typeError ∧
    (PyExpr.binOp "+" (.const .null) (.const (.num 1))).eval [] ≠
      Except.ok Value.null ∧
    (PyExpr.binOp "and" (.const (.bool false))
        (.binOp "/" (.const (.num 1)) (.const (.num 0)))).eval [] =
      Except.error PyErr.zeroDivisionError ∧
    (PyExpr.binOp "and" (.const (.bool false))
        (.binOp "/" (.const (.num 1)) (.const (.num 0)))).eval [] ≠
      Except.ok (Value.bool false) := by
  refine ⟨rfl, fun h => Except.noConfusion h, rfl, fun h => Except.noConfusion h⟩

theorem bind_ok_eq {α β : Type} (a : α) (f : α → Except PyErr β) :
    (Except.ok a >>= f : Except PyErr β) = f a := rfl

theorem bind_error_eq {α β : Type} (e : PyErr) (f : α → Except PyErr β) :
    (Except.error e >>= f : Except PyErr β) = Except.error e := rfl

theorem eval_binOp_eq (op : String) (l r : PyExpr) (ctx : Ctx) :
    (PyExpr.binOp op l r).eval ctx =
      (l.eval ctx >>= fun lv => r.eval ctx >>= fun rv => evalBinOp op lv rv) :=
  rfl

/-- C5 as amended: native evaluation of `BinOp` satisfies — division by zero
raises `ZeroDivisionError`; any of the six arithmetic operators applied to a
null operand raises `TypeError` (not null); `and`/`or` return the Python
truthiness-correct value of their already-evaluated operands, but both
operands are always evaluated, so an error in the right operand surfaces even
when the left operand decides the result (no short-circuit). -/
theorem native_eval_amended :
    (∀ (l r : PyExpr) (ctx : Ctx) (lv rv : Value) (a : ℚ),
      l.eval ctx = .ok lv → r.eval ctx = .ok rv →
      lv.asNum = some a → rv.asNum = some 0 →
      (PyExpr.binOp "/" l r).eval ctx = .error .zeroDivisionError) ∧
    (∀ (op : String) (l r : PyExpr) (ctx : Ctx) (lv rv : Value),
      op ∈ ["+", "-", "*", "/", "%", "**"] →
      l.eval ctx = .ok lv → r.eval ctx = .ok rv →
      (lv = .null ∨ rv = .null) →
      (PyExpr.binOp op l r).eval ctx = .error .typeError) ∧
    (∀ (l r : PyExpr) (ctx : Ctx) (lv rv : Value),
      l.eval ctx = .ok lv → r.eval ctx = .ok rv →
      (PyExpr.binOp "and" l r).eval ctx = .ok (if lv.truthy then rv else lv) ∧
      (PyExpr.binOp "or" l r).eval ctx = .ok (if lv.truthy then lv else rv)) ∧
    (∀ (l r : PyExpr) (ctx : Ctx) (lv : Value) (e : PyErr),
      l.eval ctx = .ok lv → r.eval ctx = .error e →
      (PyExpr.binOp "and" l r).eval ctx = .error e ∧
      (PyExpr.binOp "or" l r).eval ctx = .error e) := by
  refine ⟨?_, ?_, ?_, ?_⟩
  · intro l r ctx lv rv a hl hr ha hb
    rw [eval_binOp_eq, hl, bind_ok_eq, hr, bind_ok_eq]
    simp [evalBinOp, pyDiv, ha, hb]
  · intro op l r ctx lv rv hop hl hr hnull
    rw [eval_binOp_eq, hl, bind_ok_eq, hr, bind_ok_eq]
    fin_cases hop <;>
      rcases hnull with rfl | rfl <;>
      [cases rv; cases lv; cases rv; cases lv; cases rv; cases lv;
       cases rv; cases lv; cases rv; cases lv; cases rv; cases lv] <;>
      simp [evalBinOp, pyAdd, pySub, pyMul, pyDiv, pyMod, pyPow,
        Value.asNum, Value.asInt]
  · intro l r ctx lv rv hl hr
    constructor <;> (rw [eval_binOp_eq, hl, bind_ok_eq, hr, bind_ok_eq]
                     simp [evalBinOp])
  · intro l r ctx lv e hl hr
    constructor <;> (rw [eval_binOp_eq, hl, bind_ok_eq, hr, bind_error_eq])

/-- Witness for the amended C5 theorem at concrete inputs. -/
theorem native_eval_amended_witness :
    (PyExpr.binOp "/" (.const (.num 1)) (.const (.num 0))).eval [] =
      Except.error .zeroDivisionError ∧
    (PyExpr.binOp "-" (.const (.num 3)) (.const .null)).eval [] =
      Except.error .typeError ∧
    (PyExpr.binOp "and" (.const (.bool true)) (.const (.num 7))).eval [] =
      Except.ok (.num 7) ∧
    (PyExpr.binOp "or" (.const (.num 0))
        (.binOp "+" (.const .null) (.const (.num 1)))).eval [] =
      Except.error .typeError := by
  refine ⟨?_, ?_, ?_, ?_⟩
  · exact native_eval_amended.1 _ _ [] (.num 1) (.num 0) 1 rfl rfl rfl rfl
  · exact native_eval_amended.2.1 "-" _ _ [] (.num 3) .null (by simp) rfl rfl
      (Or.inr rfl)
  · simpa using (native_eval_amended.2.2.1 (.const (.bool true))
      (.const (.num 7)) [] (.bool true) (.num 7) rfl rfl).1
  · exact (native_eval_amended.2.2.2 (.const (.num 0))
      (.binOp "+" (.const .null) (.const (.num 1))) [] (.num 0) .typeError
      rfl rfl).2

/-- Guard used by the C8 scenario: `Field("margin") > Const(0)`. -/
def marginGuard : PyExpr := .binOp ">" (.field "margin") (.const (.num 0))

/-- State machine for the C8 scenario: one `PENDING → FILLED` edge guarded by
a field the entity does not carry. -/
def pendingSM : SM :=
  { initial := "PENDING"
    transitions := [{ from_state := "PENDING", to_state := "FILLED",
                      guard := some marginGuard }] }

/-- C8 counterexample: a guard referencing the unknown field `"margin"` does
not evaluate to null — `Field.eval` is a plain `ctx[name]` lookup, so it
raises `KeyError("margin")`, which propagates out of `validate_transition`;
the transition therefore fails with `KeyError`, not with `GuardFailure`. -/
theorem guard_unknown_field_cex :
    (PyExpr.field "margin").eval [("quantity", .num 100)] =
      Except.error (.keyError "margin") ∧
    (PyExpr.field "margin").eval [("quantity", .num 100)] ≠
      Except.ok Value.null ∧
    pendingSM.validate_transition (some "PENDING") "FILLED"
        (some [("quantity", .num 100)]) (some "alice") =
      Except.error (.pyError (.keyError "margin")) ∧
    ∀ g, pendingSM.validate_transition (some "PENDING") "FILLED"
        (some [("quantity", .num 100)]) (some "alice") ≠
      Except.error (.guardFailure (some "PENDING") "FILLED" g) := by
  refine ⟨rfl, fun h => Except.noConfusion h, rfl, fun g h => ?_⟩
  rw [show pendingSM.validate_transition (some "PENDING") "FILLED"
      (some [("quantity", .num 100)]) (some "alice") =
      Except.error (.pyError (.keyError "margin")) from rfl] at h
  simp at h

theorem eval_field_eq (name : String) (ctx : Ctx) :
    (PyExpr.field name).eval ctx =
      (match ctxLookup name ctx with
       | some v => Except.ok v
       | none => Except.error (.keyError name)) := rfl

/-- C8 as amended: a guard referencing a field name absent from the entity's
evaluation context raises `KeyError` (the lookup `ctx[name]`), and that
exception — not `GuardFailure` — propagates out of `validate_transition` and
out of `transition`, before any side-effect: the event store, the object, the
hook log and the dispatch log are all left untouched. -/
theorem guard_eval_error_amended :
    (∀ (name : String) (ctx : Ctx), ctxLookup name ctx = none →
      (PyExpr.field name).eval ctx = .error (.keyError name)) ∧
    (∀ (sm : SM) (fs : Option String) (ts : String) (ctx : Ctx) (u : String)
        (t : TransitionEdge) (g : PyExpr) (e : PyErr),
      sm.get_transition fs ts = some t → t.guard = some g →
      g.eval ctx = .error e →
      sm.validate_transition fs ts (some ctx) (some u) =
        .error (.pyError e)) ∧
    (∀ (store : EventStore) (user : String) (now : Time) (sm : SM)
        (hookRun : String → Except PyErr Unit) (obj : Obj) (ts : String)
        (vf : Option Time) (t : TransitionEdge) (g : PyExpr) (e : PyErr),
      sm.get_transition obj.state ts = some t → t.guard = some g →
      g.eval obj.data = .error e →
      StoreClient.transition store user now (some sm) hookRun obj ts vf =
        ⟨.error (.pyError e), obj, store, [], [], []⟩) := by
  have hval : ∀ (sm : SM) (fs : Option String) (ts : String) (ctx : Ctx)
      (u : String) (t : TransitionEdge) (g : PyExpr) (e : PyErr),
      sm.get_transition fs ts = some t → t.guard = some g →
      g.eval ctx = .error e →
      sm.validate_transition fs ts (some ctx) (some u) =
        .error (.pyError e) := by
    intro sm fs ts ctx u t g e ht hg he
    simp only [SM.validate_transition, ht, hg, he]
  refine ⟨?_, hval, ?_⟩
  · intro name ctx h
    rw [eval_field_eq, h]
  · intro store user now sm hookRun obj ts vf t g e ht hg he
    have hv := hval sm obj.state ts obj.data user t g e ht hg he
    simp only [StoreClient.transition, hv]

/-- The C8 entity: an order holding only `quantity`, in state `PENDING`. -/
def pendObj : Obj :=
  { type_name := "Order"
    data := [("quantity", .num 100)]
    entity_id := some "E"
    version := some 1
    owner := some "alice"
    state := some "PENDING" }

/-- Witness for the amended C8 theorem at concrete inputs. -/
theorem guard_eval_error_amended_witness :
    ctxLookup "margin" [("quantity", Value.num 100)] = none ∧
    (PyExpr.field "margin").eval [("quantity", .num 100)] =
      .error (.keyError "margin") ∧
    StoreClient.transition [] "alice" 7 (some pendingSM) (fun _ => .ok ())
        pendObj "FILLED" none =
      ⟨.error (.pyError (.keyError "margin")), pendObj, [], [], [], []⟩ := by
  refine ⟨rfl, ?_, ?_⟩
  · exact guard_eval_error_amended.1 "margin" [("quantity", .num 100)] rfl
  · exact guard_eval_error_amended.2.2 [] "alice" 7 pendingSM (fun _ => .ok ())
      pendObj "FILLED" none
      { from_state := "PENDING", to_state := "FILLED",
        guard := some marginGuard }
      marginGuard (.keyError "margin") rfl rfl rfl

/-- C4: for every transition request, validation runs before any side-effect
and in this order — no edge for `(from_state, to_state)` fails with
`InvalidTransition` listing the allowed successors (the empty list when the
state is terminal); otherwise a falsy guard value fails with `GuardFailure`
carrying the guard (regardless of permissions); otherwise an `allowed_by`
list not containing the principal fails with `TransitionNotPermitted`; edges
without `allowed_by` accept any principal.  When validation fails,
`transition` leaves the store and object untouched, fires no hook and
dispatches nothing. -/
theorem validate_transition_order :
    (∀ (sm : SM) (fs : Option String) (ts : String) (ctx : Option Ctx)
        (u : Option String),
      sm.get_transition fs ts = none →
      sm.validate_transition fs ts ctx u =
        .error (.invalidTransition fs ts (sm.allowed_transitions fs))) ∧
    (∀ (sm : SM) (fs : Option String),
      (∀ t ∈ sm.transitions, ¬ some t.from_state = fs) →
      sm.allowed_transitions fs = []) ∧
    (∀ (sm : SM) (fs : Option String) (ts : String) (ctx : Ctx)
        (u : Option String) (t : TransitionEdge) (g : PyExpr) (v : Value),
      sm.get_transition fs ts = some t → t.guard = some g →
      g.eval ctx = .ok v → v.truthy = false →
      sm.validate_transition fs ts (some ctx) u =
        .error (.guardFailure fs ts g)) ∧
    (∀ (sm : SM) (fs : Option String) (ts : String) (ctx : Ctx)
        (u : String) (t : TransitionEdge) (allowed : List String),
      sm.get_transition fs ts = some t →
      (t.guard = none ∨
        ∃ g v, t.guard = some g ∧ g.eval ctx = .ok v ∧ v.truthy = true) →
      t.allowed_by = some allowed → allowed.contains u = false →
      sm.validate_transition fs ts (some ctx) (some u) =
        .error (.transitionNotPermitted fs ts u allowed)) ∧
    (∀ (sm : SM) (fs : Option String) (ts : String) (ctx : Ctx)
        (u : String) (t : TransitionEdge),
      sm.get_transition fs ts = some t →
      (t.guard = none ∨
        ∃ g v, t.guard = some g ∧ g.eval ctx = .ok v ∧ v.truthy = true) →
      t.allowed_by = none →
      sm.validate_transition fs ts (some ctx) (some u) = .ok t) ∧
    (∀ (store : EventStore) (user : String) (now : Time) (sm : SM)
        (hookRun : String → Except PyErr Unit) (obj : Obj) (ts : String)
        (vf : Option Time) (e : Err),
      sm.validate_transition obj.state ts (some obj.data) (some user) =
        .error e →
      StoreClient.transition store user now (some sm) hookRun obj ts vf =
        ⟨.error e, obj, store, [], [], []⟩) := by
  refine ⟨?_, ?_, ?_, ?_, ?_, ?_⟩
  · intro sm fs ts ctx u h
    simp only [SM.validate_transition, h]
  · intro sm fs h
    simp only [SM.allowed_transitions, List.map_eq_nil_iff, List.filter_eq_nil_iff]
    intro t ht
    simpa using h t ht
  · intro sm fs ts ctx u t g v ht hg he hv
    simp only [SM.validate_transition, ht, hg, he, hv, Bool.false_eq_true,
      if_false]
  · intro sm fs ts ctx u t allowed ht hguard hab hcon
    rcases hguard with hnone | ⟨g, v, hg, he, hv⟩
    · simp only [SM.validate_transition, ht, hnone, hab, hcon,
        Bool.false_eq_true, if_false]
    · simp only [SM.validate_transition, ht, hg, he, hv, if_true, hab, hcon,
        Bool.false_eq_true, if_false]
  · intro sm fs ts ctx u t ht hguard hab
    rcases hguard with hnone | ⟨g, v, hg, he, hv⟩
    · simp only [SM.validate_transition, ht, hnone, hab]
    · simp only [SM.validate_transition, ht, hg, he, hv, if_true, hab]
  · intro store user now sm hookRun obj ts vf e hv
    simp only [StoreClient.transition, hv]

/-- The C4 scenario machine: a guarded `PENDING → FILLED` edge, a
permissioned `PENDING → CANCELLED` edge, and the terminal state `SETTLED`. -/
def c4SM : SM :=
  { initial := "PENDING"
    transitions :=
      [{ from_state := "PENDING", to_state := "FILLED",
         guard := some (.binOp ">" (.field "quantity") (.const (.num 0))) },
       { from_state := "PENDING", to_state := "CANCELLED",
         allowed_by := some ["risk_manager"] }] }

/-- Witness for the C4 theorem at concrete inputs. -/
theorem validate_transition_order_witness :
    c4SM.validate_transition (some "SETTLED") "PENDING"
        (some [("quantity", .num 100)]) (some "alice") =
      .error (.invalidTransition (some "SETTLED") "PENDING" []) ∧
    c4SM.allowed_transitions (some "SETTLED") = [] ∧
    c4SM.validate_transition (some "PENDING") "FILLED"
        (some [("quantity", .num 0)]) (some "alice") =
      .error (.guardFailure (some "PENDING") "FILLED"
        (.binOp ">" (.field "quantity") (.const (.num 0)))) ∧
    c4SM.validate_transition (some "PENDING") "CANCELLED"
        (some [("quantity", .num 100)]) (some "alice") =
      .error (.transitionNotPermitted (some "PENDING") "CANCELLED" "alice"
        ["risk_manager"]) ∧
    c4SM.validate_transition (some "PENDING") "FILLED"
        (some [("quantity", .num 100)]) (some "alice") =
      .ok { from_state := "PENDING", to_state := "FILLED",
            guard := some (.binOp ">" (.field "quantity") (.const (.num 0))) } ∧
    StoreClient.transition [] "alice" 7 (some c4SM) (fun _ => .ok ())
        { pendObj with data := [("quantity", .num 0)] } "FILLED" none =
      ⟨.error (.guardFailure (some "PENDING") "FILLED"
         (.binOp ">" (.field "quantity") (.const (.num 0)))),
       { pendObj with data := [("quantity", .num 0)] }, [], [], [], []⟩ := by
  refine ⟨?_, ?_, ?_, ?_, ?_, ?_⟩
  · simpa using validate_transition_order.1 c4SM (some "SETTLED") "PENDING"
      (some [("quantity", .num 100)]) (some "alice") rfl
  · exact validate_transition_order.2.1 c4SM (some "SETTLED") (by decide)
  · exact validate_transition_order.2.2.1 c4SM (some "PENDING") "FILLED"
      [("quantity", .num 0)] (some "alice") _
      (.binOp ">" (.field "quantity") (.const (.num 0))) (.bool false)
      rfl rfl rfl rfl
  · exact validate_transition_order.2.2.2.1 c4SM (some "PENDING") "CANCELLED"
      [("quantity", .num 100)] "alice" _ ["risk_manager"] rfl (Or.inl rfl)
      rfl rfl
  · exact validate_transition_order.2.2.2.2.1 c4SM (some "PENDING") "FILLED"
      [("quantity", .num 100)] "alice" _ rfl
      (Or.inr ⟨_, .bool true, rfl, rfl, rfl⟩) rfl
  · exact validate_transition_order.2.2.2.2.2 [] "alice" 7 c4SM
      (fun _ => .ok ()) { pendObj with data := [("quantity", .num 0)] }
      "FILLED" none _ (validate_transition_order.2.2.1 c4SM (some "PENDING")
        "FILLED" [("quantity", .num 0)] (some "alice") _
        (.binOp ">" (.field "quantity") (.const (.num 0))) (.bool false)
        rfl rfl rfl rfl)

/-- `MAX(version)` over the entity's events (`0` when there are none). -/
def max_version (store : EventStore) (entity_id : String) : Nat :=
  ((store.filter (fun r => r.entity_id == entity_id)).map Row.version).foldl
    max 0

theorem next_version_eq (store : EventStore) (e : String) :
    StoreClient.next_version store e = max_version store e + 1 := rfl

/-- C3: with a cached version N while the stored maximum is N+1, the next
`update` or `delete` fails with `VersionConflict(expected=N, actual=N+1)` and
appends nothing; with a cached version equal to the stored maximum N, an
`update` by the owner or a writer succeeds and assigns version N+1. -/
theorem occ_version_conflict
    (store : EventStore) (user : String) (now : Time) (obj : Obj)
    (e : String) (N : Nat) (vf : Option Time)
    (hid : obj.entity_id = some e) (hver : obj.version = some N) :
    (max_version store e = N + 1 →
      StoreClient.update store user now obj vf =
        (.error (.versionConflict e N (N + 1)), store) ∧
      StoreClient.delete store user now obj =
        (.error (.versionConflict e N (N + 1)), store)) ∧
    (∀ p, max_version store e = N →
      StoreClient.latestRow (fun r => r.entity_id == e) store = some p →
      (user = p.owner ∨ p.writers.contains user) →
      ∃ obj2 newRow,
        StoreClient.update store user now obj vf =
          (.ok obj2, store ++ [newRow]) ∧
        obj2.version = some (N + 1) ∧ newRow.version = N + 1 ∧
        newRow.entity_id = e ∧ newRow.owner = p.owner) := by
  constructor
  · intro hmax
    have hnv : StoreClient.next_version store e = N + 2 := by
      rw [next_version_eq, hmax]
    constructor
    · simp only [StoreClient.update, hid, hver, hnv]
      norm_num
    · simp only [StoreClient.delete, hid, hver, hnv]
      norm_num
  · intro p hmax hlatest hperm
    have hnv : StoreClient.next_version store e = N + 1 := by
      rw [next_version_eq, hmax]
    have hpermBool : (user != p.owner && !(p.writers.contains user)) = false := by
      rcases hperm with h | h
      · simp [h]
      · simp only [h, Bool.not_true, Bool.and_false]
    simp only [StoreClient.update, hid, hver, hnv, hlatest, hpermBool]
    norm_num
    exact ⟨_, _, ⟨rfl, rfl⟩, rfl, rfl, rfl, rfl⟩

/-- Version-1 event of the C3 scenario entity `"W"`. -/
def c3Row1 : Row :=
  { entity_id := "W", version := 1, type_name := "Widget", owner := "alice",
    updated_by := "alice", readers := [], writers := [],
    data := [("color", .str "blue")], state := none, event_type := "CREATED",
    event_meta := none, tx_time := 1, valid_from := 1, valid_to := none }

/-- Version-2 event of the C3 scenario entity (a racing writer got there). -/
def c3Row2 : Row :=
  { c3Row1 with
    version := 2
    event_type := "UPDATED"
    data := [("color", .str "red")]
    tx_time := 2
    valid_from := 2 }

/-- The C3 event table: entity `"W"` at stored maximum version 2. -/
def c3Store : EventStore := [c3Row1, c3Row2]

/-- A client-side object of `"W"` still caching version 1. -/
def c3ObjStale : Obj :=
  { type_name := "Widget", data := [("color", .str "green")],
    entity_id := some "W", version := some 1, owner := some "alice" }

/-- The same object caching the current version 2. -/
def c3ObjFresh : Obj := { c3ObjStale with version := some 2 }

/-- Witness for the C3 theorem at concrete inputs. -/
theorem occ_version_conflict_witness :
    max_version c3Store "W" = 2 ∧
    StoreClient.update c3Store "alice" 5 c3ObjStale none =
      (.error (.versionConflict "W" 1 2), c3Store) ∧
    StoreClient.delete c3Store "alice" 5 c3ObjStale =
      (.error (.versionConflict "W" 1 2), c3Store) ∧
    ∃ obj2 newRow,
      StoreClient.update c3Store "alice" 5 c3ObjFresh none =
        (.ok obj2, c3Store ++ [newRow]) ∧
      obj2.version = some 3 ∧ newRow.version = 3 ∧
      newRow.entity_id = "W" ∧ newRow.owner = c3Row2.owner := by
  have h := occ_version_conflict c3Store "alice" 5 c3ObjStale "W" 1 none
    rfl rfl
  have h2 := occ_version_conflict c3Store "alice" 5 c3ObjFresh "W" 2 none
    rfl rfl
  exact ⟨rfl, (h.1 rfl).1, (h.1 rfl).2, h2.2 c3Row2 rfl rfl (Or.inl rfl)⟩

/-- One row's transformation under `share_read`'s UPDATE is idempotent: after
the grantee is appended, the `NOT (u = ANY(readers))` condition excludes the
row from any further UPDATE. -/
theorem share_read_row_idem (e u : String) (r : Row) :
    share_read_row e u (share_read_row e u r) = share_read_row e u r := by
  by_cases hcond : (r.entity_id == e && !(r.readers.contains u)) = true
  · have h1 : share_read_row e u r = { r with readers := r.readers ++ [u] } := by
      unfold share_read_row
      rw [if_pos hcond]
    rw [h1]
    unfold share_read_row
    rw [if_neg (by simp)]
  · have h1 : share_read_row e u r = r := by
      unfold share_read_row
      rw [if_neg hcond]
    rw [h1, h1]

/-- C9: `share_read` is idempotent — a second `share_read(E, Q)` call leaves
the readers arrays of every version of E (and every other row) exactly as
they were after the first call: nothing is appended again and no entry is
duplicated. -/
theorem share_read_idempotent (store : EventStore)
    (entity_id to_user : String) :
    share_read (share_read store entity_id to_user) entity_id to_user =
      share_read store entity_id to_user := by
  simp only [share_read, List.map_map]
  apply List.map_congr_left
  intro r _
  exact share_read_row_idem entity_id to_user r

/-- C10: unlike `read` (and `query`), `as_of` applies no tombstone filter —
when the latest event of an entity within the given tx-time/valid-time bounds
is a `DELETED` tombstone, `as_of` returns the object built from that
tombstone row, while `read` (whose latest version is that same tombstone)
returns null. -/
theorem as_of_returns_tombstone
    (store : EventStore) (entity_id : String) (txT validT : Option Time)
    (r r2 : Row)
    (hasof : StoreClient.latestRow (StoreClient.as_of_pred entity_id txT validT)
      store = some r)
    (hdel : r.event_type = "DELETED")
    (hread : StoreClient.latestRow (fun row => row.entity_id == entity_id)
      store = some r2)
    (hdel2 : r2.event_type = "DELETED") :
    StoreClient.as_of store entity_id txT validT =
      some (StoreClient._row_to_object r) ∧
    StoreClient.read store entity_id = none := by
  constructor
  · simp only [StoreClient.as_of, hasof, Option.map]
  · simp only [StoreClient.read, hread, hdel2]
    simp

/-- Version-1 event of the C10 scenario entity `"W2"`. -/
def c10Row1 : Row :=
  { entity_id := "W2", version := 1, type_name := "Widget", owner := "alice",
    updated_by := "alice", readers := [], writers := [],
    data := [("color", .str "blue")], state := none, event_type := "CREATED",
    event_meta := none, tx_time := 1, valid_from := 1, valid_to := none }

/-- The tombstone that soft-deleted `"W2"`. -/
def c10Row2 : Row :=
  { c10Row1 with
    version := 2
    event_type := "DELETED"
    data := []
    tx_time := 2
    valid_from := 2 }

/-- Witness for the C10 theorem at concrete inputs. -/
theorem as_of_returns_tombstone_witness :
    StoreClient.as_of [c10Row1, c10Row2] "W2" none none =
      some (StoreClient._row_to_object c10Row2) ∧
    StoreClient.read [c10Row1, c10Row2] "W2" = none :=
  as_of_returns_tombstone [c10Row1, c10Row2] "W2" none none c10Row2 c10Row2
    rfl rfl rfl rfl

/-- The C1 scenario machine: `NEW → DONE` with a tier-1 action that raises
(demo 2 of `src/demo_three_tiers.py`). -/
def failSM : SM :=
  { initial := "NEW"
    transitions := [{ from_state := "NEW", to_state := "DONE",
                      action := some "boom" }] }

/-- Hook behaviour for C1: the action `"boom"` raises. -/
def c1HookRun : String → Except PyErr Unit := fun h =>
  if h == "boom" then .error (.valueError "Settlement system unavailable!")
  else .ok ()

/-- The CREATED event of the C1 scenario entity `"O1"`. -/
def c1Row : Row :=
  { entity_id := "O1", version := 1, type_name := "Order", owner := "trader",
    updated_by := "trader", readers := [], writers := [],
    data := [("symbol", .str "MSFT")], state := some "NEW",
    event_type := "CREATED", event_meta := none, tx_time := 1,
    valid_from := 1, valid_to := none }

/-- The in-memory C1 entity, in state `NEW` at version 1. -/
def c1Obj : Obj :=
  { type_name := "Order", data := [("symbol", .str "MSFT")],
    entity_id := some "O1", version := some 1, owner := some "trader",
    state := some "NEW" }

/-- The C1 transition call: `transition(order, "DONE")` whose action raises. -/
def c1Res : StoreClient.TransitionResult :=
  StoreClient.transition [c1Row] "trader" 5 (some failSM) c1HookRun c1Obj
    "DONE" none

/-- C1 evaluated at the failing input: the tier-1 action raises, the raise
propagates out of `transition` — but the `STATE_CHANGE` event for entity
`"O1"` IS persisted (the INSERT committed under `autocommit = True` before
the action ran), and the in-memory object's state and version HAVE advanced.
This contradicts the claim (and the source's own docstrings) that an action
failure rolls the state change back and persists no event. -/
theorem transition_action_failure_event_persisted :
    c1Res.result =
      .error (.pyError (.valueError "Settlement system unavailable!")) ∧
    c1Res.store.map Row.event_type = ["CREATED", "STATE_CHANGE"] ∧
    (c1Res.store.filter (fun r =>
      r.event_type == "STATE_CHANGE" && r.entity_id == "O1")).length = 1 ∧
    c1Res.obj.state = some "DONE" ∧
    c1Res.obj.version = some 2 :=
  ⟨rfl, rfl, rfl, rfl, rfl⟩

/-- The C2 scenario machine: `ALPHA → BETA` with a tier-3 `start_workflow`
and a tier-2 `on_enter` hook for `BETA` that raises (demo 3 of
`src/demo_three_tiers.py` plus a declared workflow). -/
def fragileSM : SM :=
  { initial := "ALPHA"
    transitions := [{ from_state := "ALPHA", to_state := "BETA",
                      start_workflow := some "settlement_workflow" }]
    on_enter := [("BETA", ["notify"])] }

/-- Hook behaviour for C2: the `on_enter` hook `"notify"` raises. -/
def c2HookRun : String → Except PyErr Unit := fun h =>
  if h == "notify" then .error (.valueError "Notification service down!")
  else .ok ()

/-- The CREATED event of the C2 scenario entity `"O2"`. -/
def c2Row : Row :=
  { entity_id := "O2", version := 1, type_name := "Order", owner := "trader",
    updated_by := "trader", readers := [], writers := [],
    data := [("symbol", .str "GOOG")], state := some "ALPHA",
    event_type := "CREATED", event_meta := none, tx_time := 1,
    valid_from := 1, valid_to := none }

/-- The in-memory C2 entity, in state `ALPHA` at version 1. -/
def c2Obj : Obj :=
  { type_name := "Order", data := [("symbol", .str "GOOG")],
    entity_id := some "O2", version := some 1, owner := some "trader",
    state := some "ALPHA" }

/-- The C2 transition call: `transition(order, "BETA")` whose tier-2
`on_enter` hook raises and whose edge declares a `start_workflow`. -/
def c2Res : StoreClient.TransitionResult :=
  StoreClient.transition [c2Row] "trader" 5 (some fragileSM) c2HookRun c2Obj
    "BETA" none

/-- C2 evaluated at the failing input: the `STATE_CHANGE` commits, the
(spec-modelled) tier-2 `on_enter` hook runs after the commit and its
exception is swallowed, the state change stands — but although the edge
declares `start_workflow = settlement_workflow`, NOTHING is dispatched to the
WorkflowEngine: `StoreClient.transition` contains no tier-3 dispatch at all
(and the `fire_on_exit`/`fire_on_enter` methods it calls do not exist in
`src/store/state_machine.py`). -/
theorem transition_no_workflow_dispatch :
    (fragileSM.transitions.map (fun t => t.start_workflow)) =
      [some "settlement_workflow"] ∧
    c2Res.result = .ok () ∧
    c2Res.store.map Row.event_type = ["CREATED", "STATE_CHANGE"] ∧
    c2Res.obj.state = some "BETA" ∧
    c2Res.hookCalls = ["notify"] ∧
    c2Res.swallowed = [("notify", .valueError "Notification service down!")] ∧
    c2Res.dispatched = [] :=
  ⟨rfl, rfl, rfl, rfl, rfl, rfl, rfl⟩

theorem catch_up_loop_fst :
    ∀ (rows : List Row) (acc : List ChangeEvent) (t : Time),
      (rows.foldl (fun (acc : List ChangeEvent × Time) r =>
        (acc.1 ++ [rowEvent r], r.tx_time)) (acc, t)).1 =
        acc ++ rows.map rowEvent := by
  intro rows
  induction rows with
  | nil => intro acc t; simp
  | cons r rest ih =>
    intro acc t
    simp only [List.foldl_cons, List.map_cons, ih]
    simp

theorem catch_up_loop_snd :
    ∀ (rows : List Row) (acc : List ChangeEvent) (t : Time),
      (rows.foldl (fun (acc : List ChangeEvent × Time) r =>
        (acc.1 ++ [rowEvent r], r.tx_time)) (acc, t)).2 =
        (rows.map Row.tx_time).getLastD t := by
  intro rows
  induction rows with
  | nil => intro acc t; simp
  | cons r rest ih =>
    intro acc t
    simp only [List.foldl_cons, List.map_cons, ih, List.getLastD_cons]

/-- C6 as amended: a catch-up from persisted checkpoint `last0` dispatches to
the event bus exactly the events with `tx_time > last0` (as a sorted
permutation of that selection), in ascending `tx_time`; the in-memory
high-water mark is advanced after each dispatched event, ending at the last
dispatched `tx_time` (or staying at `last0` when nothing qualifies); and the
checkpoint is persisted ONCE, after the catch-up loop, at that final mark —
not after each event. -/
theorem catch_up_amended (store : EventStore) (sub : String) (now : Time)
    (last0 : Time) :
    List.Perm (catch_up store (some sub) now (some last0)).dispatched
      ((store.filter (fun r => decide (last0 < r.tx_time))).map rowEvent) ∧
    List.Sorted (fun a b : ChangeEvent => a.tx_time ≤ b.tx_time)
      (catch_up store (some sub) now (some last0)).dispatched ∧
    (∀ ev, ev ∈ (catch_up store (some sub) now (some last0)).dispatched ↔
      ∃ r, (r ∈ store ∧ last0 < r.tx_time) ∧ rowEvent r = ev) ∧
    (catch_up store (some sub) now (some last0)).last_tx_time =
      some (((catch_up store (some sub) now
        (some last0)).dispatched.map ChangeEvent.tx_time).getLastD last0) ∧
    (catch_up store (some sub) now (some last0)).persisted =
      [((catch_up store (some sub) now
        (some last0)).dispatched.map ChangeEvent.tx_time).getLastD last0] := by
  have hdisp : (catch_up store (some sub) now (some last0)).dispatched =
      (List.insertionSort txLe
        (store.filter (fun r => decide (last0 < r.tx_time)))).map rowEvent := by
    simp only [catch_up, catch_up_loop_fst, List.nil_append]
  have hsnd : ∀ rows : List Row,
      (rows.foldl (fun (acc : List ChangeEvent × Time) r =>
        (acc.1 ++ [rowEvent r], r.tx_time)) (([] : List ChangeEvent),
          last0)).2 = ((rows.map rowEvent).map ChangeEvent.tx_time).getLastD
            last0 := by
    intro rows
    rw [catch_up_loop_snd, List.map_map]
    rfl
  refine ⟨?_, ?_, ?_, ?_, ?_⟩
  · rw [hdisp]
    exact (List.perm_insertionSort txLe _).map rowEvent
  · rw [hdisp]
    exact List.Pairwise.map rowEvent (fun a b h => h)
      (List.sorted_insertionSort txLe _)
  · intro ev
    rw [hdisp]
    constructor
    · intro h
      have h2 := ((List.perm_insertionSort txLe _).map rowEvent).mem_iff.mp h
      simpa [List.mem_map, List.mem_filter] using h2
    · intro h
      apply ((List.perm_insertionSort txLe _).map rowEvent).mem_iff.mpr
      simpa [List.mem_map, List.mem_filter] using h
  · rw [hdisp]
    simp only [catch_up, hsnd, catch_up_loop_fst, List.nil_append]
  · rw [hdisp]
    simp only [catch_up, hsnd, catch_up_loop_fst, List.nil_append,
      save_checkpoint]

/-- First event appended while the C6 subscriber was down (`tx_time` 11). -/
def c6Row1 : Row :=
  { entity_id := "E6", version := 1, type_name := "Widget", owner := "alice",
    updated_by := "alice", readers := [], writers := [],
    data := [("color", .str "blue")], state := none, event_type := "CREATED",
    event_meta := none, tx_time := 11, valid_from := 11, valid_to := none }

/-- Second event appended while the C6 subscriber was down (`tx_time` 12). -/
def c6Row2 : Row :=
  { c6Row1 with
    version := 2
    event_type := "UPDATED"
    tx_time := 12
    valid_from := 12 }

/-- C6 counterexample: restarting from persisted checkpoint 10 with two
missed events (tx 11 and 12), the catch-up dispatches both events in
ascending `tx_time` but performs exactly ONE durable checkpoint write — at
the final mark 12, after the loop.  No checkpoint with value 11 is ever
persisted, so the checkpoint is NOT persisted after each dispatched event as
the claim states (`_save_checkpoint` is called once, at
src/store/subscriptions.py line 215, outside the loop). -/
theorem catch_up_persist_cex :
    (catch_up [c6Row1, c6Row2] (some "X") 99 (some 10)).dispatched.map
      ChangeEvent.tx_time = [11, 12] ∧
    (catch_up [c6Row1, c6Row2] (some "X") 99 (some 10)).persisted = [12] ∧
    (catch_up [c6Row1, c6Row2] (some "X") 99 (some 10)).persisted ≠
      [11, 12] ∧
    ¬ (11 ∈ (catch_up [c6Row1, c6Row2] (some "X") 99 (some 10)).persisted) := by
  refine ⟨rfl, rfl, by decide, by decide⟩
